import Mathlib

/-!
Shallow embedding of the credential/token subsystem of the FastAPI-JWT
repository (`src/fastapi_jwt/hashing.py`, `src/fastapi_jwt/database.py`,
`src/fastapi_jwt/models.py`, `src/fastapi_jwt/__init__.py`).

Modelling conventions:
* POSIX timestamps are `Int` (the Python code uses float seconds; every
  comparison the claims touch is between whole-second quantities, so the
  integer model is faithful to the comparisons performed).
* Byte strings (`bytes`) are `List Nat` of byte values; a password is taken
  after its UTF-8 normalisation, which the source performs unconditionally.
* The wall clock (`datetime.now(timezone.utc)`) is an explicit `now : Int`
  parameter threaded to each operation that reads it.
* The scrypt KDF from `hashlib` is an external primitive; the embedding is
  parametric in it (`kdf : ScryptParams → List Nat → List Nat → List Nat`),
  with the cost parameters the source fixes at both call sites made explicit.
* The relational store behind SQLModel/SQLAlchemy is a pair of row lists;
  `async with session.begin()` is a transaction that commits all of the
  body's writes on success and discards all of them on any error.
-/

namespace FastAPIJWT

/-! ## Credential Hasher (`hashing.py`) -/

/-- The scrypt cost parameters, fixed at both call sites of
`hashlib.scrypt` in `hashPassword`: `n=2**14, r=8, p=1, dklen=128`. -/
structure ScryptParams where
  n : Nat
  r : Nat
  p : Nat
  dklen : Nat
deriving DecidableEq, Repr

/-- The parameter values the source passes to `hashlib.scrypt`. -/
def scryptParams : ScryptParams := ⟨2 ^ 14, 8, 1, 128⟩

/-- The type of the external `hashlib.scrypt` primitive:
cost parameters, password bytes and salt bytes to derived-key bytes. -/
def KDF : Type := ScryptParams → List Nat → List Nat → List Nat

/-- Model of `hashing.hashPassword`: if `salt is None` a fresh 16-byte random salt is
drawn from `os.urandom(16)` (modelled by the `entropy` argument supplying the
bytes that call would return); the password is hashed by `hashlib.scrypt`
with the fixed cost parameters; returns `(hashed_password, salt)`. -/
def hashPassword (kdf : KDF) (entropy : List Nat) (password : List Nat)
    (salt : Option (List Nat)) : List Nat × List Nat :=
  let s := salt.getD entropy
  (kdf scryptParams password s, s)

/-- CPython's `_tscmp`, the algorithm behind `hmac.compare_digest`:
the accumulator starts at 0 when the lengths agree and at 1 otherwise, the
loop always runs over `len(b)` byte positions (comparing `b` against itself
when the lengths differ) OR-ing in the XOR of each byte pair, and the result
is `accumulator == 0`.  The second component counts the byte comparisons
performed, instrumenting the loop's running time. -/
def tscmp (a b : List Nat) : Bool × Nat :=
  let init : Nat := if a.length = b.length then 0 else 1
  let pairs := (if a.length = b.length then a else b).zip b
  let acc := pairs.foldl (fun r q => r ||| (q.1 ^^^ q.2)) init
  (decide (acc = 0), pairs.length)

/-- Model of `hmac.compare_digest`, the boolean result of `tscmp`. -/
def compare_digest (a b : List Nat) : Bool :=
  (tscmp a b).1

/-- Model of `hashing.verifyPassword`: recompute the hash of the candidate password
with the stored salt via `hashPassword` and compare with
`hmac.compare_digest`. -/
def verifyPassword (kdf : KDF) (password : List Nat) (hashed_password : List Nat)
    (salt : List Nat) : Bool :=
  compare_digest (hashPassword kdf [] password (some salt)).1 hashed_password

/-! ## Token Service (`hashing.py`) -/

/-- The decoded JWT claims set `{"sub": ..., "iat": ..., "exp": ...}`. -/
structure Payload where
  sub : String
  iat : Int
  exp : Int
deriving DecidableEq, Repr

/-- The symmetric signing secret hard-coded in `issueJSONWebToken` and
`decodeJSONWebToken`. -/
def SECRET_KEY : String :=
  "727FC49123C0D17296E26FFFEDDB09799156C5943A4A9F6294FEB7A4585AA640"

/-- A JWT string: either a structurally well-formed token signed under some
key, or a malformed/corrupt string that fails parsing or signature checks. -/
inductive Token where
  | signed (key : String) (payload : Payload)
  | malformed (raw : String)
deriving DecidableEq, Repr

/-- Model of `jwt.encode(payload, key, algorithm)`: serialise and sign. -/
def jwtEncode (payload : Payload) (key : String) : Token :=
  .signed key payload

/-- Model of `jwt.decode(token, key, algorithms, leeway)` from PyJWT: structural or
signature failure raises (here `none`); otherwise `_validate_exp` raises
`ExpiredSignatureError` — also caught by the caller, hence `none` — exactly
when `exp <= now - leeway`, and the payload is returned otherwise. -/
def jwtDecode (token : Token) (key : String) (leeway : Int) (now : Int) :
    Option Payload :=
  match token with
  | .malformed _ => none
  | .signed k p =>
      if k = key then
        if p.exp ≤ now - leeway then none else some p
      else none

/-- Model of `hashing.tokenLifeSpan`: `(issue, expiry) = (now, now + lifespan)`. -/
def tokenLifeSpan (now : Int) (lifespan : Int) : Int × Int :=
  (now, now + lifespan)

/-- Model of `hashing.issueJSONWebToken`: build the claims from `tokenLifeSpan` with
the configured lifespan (`int(os.getenv("JWT_LIFESPAN"))`, here the
parameter `lifespan`) and sign them with the hard-coded secret. -/
def issueJSONWebToken (lifespan : Int) (now : Int) (username : String) : Token :=
  let ts := tokenLifeSpan now lifespan
  jwtEncode ⟨username, ts.1, ts.2⟩ SECRET_KEY

/-- Model of `hashing.decodeJSONWebToken`: `jwt.decode` with the hard-coded secret
and `leeway = timedelta(seconds=int(os.getenv("JWT_LIFESPAN")))` — the
leeway equals the configured token lifespan; any `PyJWTError` gives `None`. -/
def decodeJSONWebToken (lifespan : Int) (now : Int) (token : Token) :
    Option Payload :=
  jwtDecode token SECRET_KEY lifespan now

/-- Model of `hashing.decodeTimestamp`: renders a timestamp as human-readable text
for the `X-Token-Expiry` header.  No claim depends on the strftime format,
so the rendering is modelled as the decimal form of the timestamp. -/
def decodeTimestamp (ts : Int) : String :=
  toString ts

/-! ## Data model (`models.py`) -/

/-- Row of the `users` table (`models.Users`).  The `user_id` primary key is
produced by `randomULID` at construction time (here a parameter), `active`
defaults to `True`, `created_on` and `last_login` default to the current
UTC time. -/
structure Users where
  user_id : String
  first_name : String
  last_name : Option String
  username : String
  password : List Nat
  active : Bool
  created_on : Int
  last_login : Int
deriving DecidableEq, Repr

/-- Row of the `salts` table (`models.Salts`), with a foreign key
`user_id` into `users`. -/
structure Salts where
  salt_id : String
  salt : List Nat
  user_id : String
  created_on : Int
  updated_on : Int
deriving DecidableEq, Repr

/-- Body of the signup request (`models.NewUserForm`); length/format
validation happens at the framework boundary, outside this model.  The
password is carried after UTF-8 normalisation. -/
structure NewUserForm where
  first_name : String
  last_name : Option String
  username : String
  password : List Nat
deriving DecidableEq, Repr

/-- Response model `models.AccessToken`. -/
structure AccessToken where
  access_token : Token
  token_type : String
deriving DecidableEq, Repr

/-! ## Persistence Gateway (`database.py`) -/

/-- The relational store: the `users` and `salts` tables as row lists in
insertion order. -/
structure Database where
  users : List Users
  salts : List Salts
deriving DecidableEq, Repr

/-- Model of `database.usernameExists`: `SELECT username FROM users WHERE username =
?`, then `len(results) > 0`. -/
def usernameExists (username : String) (db : Database) : Bool :=
  decide (0 < (db.users.filter (fun u => u.username == username)).length)

/-- Model of `database.retrieveUser`: `SELECT users.*, salts.* FROM users JOIN salts
ON users.user_id = salts.user_id WHERE users.username = ?`, then
`fetchone()` — `none` when no joined row matches. -/
def retrieveUser (username : String) (db : Database) : Option (Users × Salts) :=
  ((db.users.flatMap (fun u =>
      db.salts.filterMap (fun s =>
        if u.user_id == s.user_id then some (u, s) else none))).filter
    (fun q => q.1.username == username)).head?

/-- Model of `database.updateLoginTimestamp`: `UPDATE users SET last_login = now
WHERE username = ?`. -/
def updateLoginTimestamp (username : String) (now : Int) (db : Database) :
    Database :=
  { db with
    users := db.users.map (fun u =>
      if u.username == username then { u with last_login := now } else u) }

/-- A single `INSERT INTO users VALUES (...)`: fails on a primary-key or
unique-`username` constraint violation, otherwise appends the row. -/
def insertUser (u : Users) (db : Database) : Option Database :=
  if db.users.any (fun v => v.user_id == u.user_id || v.username == u.username)
  then none
  else some { db with users := db.users ++ [u] }

/-- A single `INSERT INTO salts VALUES (...)`: fails on a primary-key
violation or when the `user_id` foreign key matches no `users` row,
otherwise appends the row. -/
def insertSalt (s : Salts) (db : Database) : Option Database :=
  if db.salts.any (fun t => t.salt_id == s.salt_id) then none
  else if db.users.any (fun u => u.user_id == s.user_id)
  then some { db with salts := db.salts ++ [s] }
  else none

/-- Model of `database.updateDatabaseWithNewUser`: both inserts are executed inside
one `async with session.begin()` block, whose semantics is commit-on-exit /
roll-back-on-exception: on success the state holds both new rows, and on
any error the transaction is rolled back and the caller's state is the
unchanged `db` (`none` here carries no partial state). -/
def updateDatabaseWithNewUser (user : Users) (salt : Salts) (db : Database) :
    Option Database :=
  match insertUser user db with
  | none => none
  | some db1 =>
      match insertSalt salt db1 with
      | none => none
      | some db2 => some db2

/-! ## Authentication Orchestrator (`__init__.py`) -/

/-- Model of `fastapi.exceptions.HTTPException`, as raised by the router: a status
code and a detail message. -/
structure HTTPException where
  status_code : Nat
  detail : String
deriving DecidableEq, Repr

/-- Model of `InvalidCredentials = HTTPException(401, "invalid credentials")`. -/
def InvalidCredentials : HTTPException := ⟨401, "invalid credentials"⟩

/-- Model of `InvalidToken = HTTPException(401, "invalid bearer token")`. -/
def InvalidToken : HTTPException := ⟨401, "invalid bearer token"⟩

/-- Model of `ExpiredToken = HTTPException(403, "bearer token expired")`. -/
def ExpiredToken : HTTPException := ⟨403, "bearer token expired"⟩

/-- Model of `UserExists = HTTPException(409, "username exists")`. -/
def UserExists : HTTPException := ⟨409, "username exists"⟩

/-- Model of `InactiveUser = HTTPException(403, "user inactive")`. -/
def InactiveUser : HTTPException := ⟨403, "user inactive"⟩

/-- How a request handler can fail: a raised `HTTPException` (mapped to its
status code by FastAPI), an uncaught `TypeError` (e.g. subscripting an
object with no item access, or unpacking `None`), or an exception escaping
the persistence layer; the latter two surface as HTTP 500. -/
inductive PyError where
  | http (e : HTTPException)
  | typeError
  | dbError
deriving DecidableEq, Repr

/-- Model of `fastapi.responses.PlainTextResponse(content, headers=...)`. -/
structure PlainTextResponse where
  body : String
  headers : List (String × String)
deriving DecidableEq, Repr

/-- Python subscription `resp[key]` on a `PlainTextResponse`: the class
defines no `__getitem__`, so every subscription raises `TypeError`
(modelled as `none` for every key). -/
def PlainTextResponse.getItem (_ : PlainTextResponse) (_ : String) :
    Option String :=
  none

/-- Model of `create_new_user` (`POST /auth/create-user`): refuse an existing
username with `UserExists`; hash the password with a fresh random salt;
build the `Users` row (id `uid` from `randomULID`, `active` defaulting to
`True`, timestamps defaulting to `now`) and the `Salts` row with
`user_id = entryUsers.user_id`; persist both atomically; return the
username together with the post-state. -/
def create_new_user (kdf : KDF) (entropy : List Nat) (uid sid : String)
    (now : Int) (form : NewUserForm) (db : Database) :
    Except PyError (String × Database) :=
  if usernameExists form.username db then .error (.http UserExists)
  else
    let hp := hashPassword kdf entropy form.password none
    let entryUsers : Users :=
      ⟨uid, form.first_name, form.last_name, form.username, hp.1, true, now, now⟩
    let entrySalt : Salts := ⟨sid, hp.2, entryUsers.user_id, now, now⟩
    match updateDatabaseWithNewUser entryUsers entrySalt db with
    | none => .error .dbError
    | some db2 => .ok (form.username, db2)

/-- Model of `user_login` (`POST /auth/token`): absent username fails
`InvalidCredentials`; then the user+salt pair is fetched (`fetchone()`
returning `None` would make the tuple unpacking raise `TypeError`); a
password mismatch fails `InvalidCredentials`; an inactive user fails
`InactiveUser`; otherwise `last_login` is updated and a fresh token is
issued. -/
def user_login (kdf : KDF) (lifespan : Int) (now : Int) (username : String)
    (password : List Nat) (db : Database) :
    Except PyError (AccessToken × Database) :=
  if usernameExists username db then
    match retrieveUser username db with
    | none => .error .typeError
    | some (user, salt) =>
        if verifyPassword kdf password user.password salt.salt then
          if user.active then
            let db2 := updateLoginTimestamp user.username now db
            .ok (⟨issueJSONWebToken lifespan now username, "Bearer"⟩, db2)
          else .error (.http InactiveUser)
        else .error (.http InvalidCredentials)
  else .error (.http InvalidCredentials)

/-- Model of `current_user` (`GET /auth/who-am-i`): decode the bearer token (the
decode applies the lifespan-sized leeway); a failed decode raises
`InvalidToken`; a payload with `exp <= now` raises `ExpiredToken`;
otherwise a `PlainTextResponse` with the subject as body and the rendered
expiry in the `X-Token-Expiry` header is returned. -/
def current_user (lifespan : Int) (now : Int) (token : Token) :
    Except PyError PlainTextResponse :=
  match decodeJSONWebToken lifespan now token with
  | none => .error (.http InvalidToken)
  | some payload =>
      if payload.exp ≤ now then .error (.http ExpiredToken)
      else .ok ⟨payload.sub, [("X-Token-Expiry", decodeTimestamp payload.exp)]⟩

/-- Model of `renew_json_web_token` (`GET /auth/extend-token`): `payload = await
current_user(token)` — an `HTTPException` raised there propagates — then
`payload['sub']` subscripts the returned `PlainTextResponse`, and a new
token is issued for that subject. -/
def renew_json_web_token (lifespan : Int) (now : Int) (token : Token) :
    Except PyError AccessToken :=
  match current_user lifespan now token with
  | .error e => .error e
  | .ok payload =>
      match payload.getItem "sub" with
      | none => .error .typeError
      | some s => .ok ⟨issueJSONWebToken lifespan now s, "Bearer"⟩

/-- The store visible after a signup request: the handler's post-state on
success, the rolled-back original state on any failure. -/
def signupPostState (r : Except PyError (String × Database)) (db : Database) :
    Database :=
  match r with
  | .ok q => q.2
  | .error _ => db

/-- Decidable equality of handler results, used to evaluate theorems on
closed inputs. -/
instance {ε α : Type} [DecidableEq ε] [DecidableEq α] :
    DecidableEq (Except ε α) := fun a b =>
  match a, b with
  | .error e1, .error e2 =>
      if h : e1 = e2 then .isTrue (h ▸ rfl)
      else .isFalse (fun hc => h (by injection hc))
  | .error _, .ok _ => .isFalse (fun hc => Except.noConfusion hc)
  | .ok _, .error _ => .isFalse (fun hc => Except.noConfusion hc)
  | .ok a1, .ok a2 =>
      if h : a1 = a2 then .isTrue (h ▸ rfl)
      else .isFalse (fun hc => h (by injection hc))

/-! ## Concrete sample data, used to instantiate theorems with hypotheses -/

/-- A concrete stand-in for the scrypt primitive (concatenation of password
and salt), used only to evaluate theorems on closed inputs; every theorem
quantifies over the KDF, so nothing depends on this choice. -/
def kdfDemo : KDF := fun _ pw s => pw ++ s

/-- Sample user row whose stored password hash `[9, 9]` matches no
candidate password under `kdfDemo` with salt `[7]`. -/
def userDemo : Users :=
  ⟨"01HA0USERID0000000000000000", "Bob", none, "bob.sample.01", [9, 9], true, 0, 0⟩

/-- Sample salt row belonging to `userDemo`. -/
def saltDemo : Salts :=
  ⟨"01HA0SALTID0000000000000000", [7], "01HA0USERID0000000000000000", 0, 0⟩

/-- Sample store holding exactly `userDemo` with its `saltDemo`. -/
def dbDemo : Database := ⟨[userDemo], [saltDemo]⟩

/-- Sample inactive user whose stored hash `[1, 7]` equals
`kdfDemo scryptParams [1] [7]`, so password `[1]` verifies. -/
def userInactive : Users :=
  ⟨"01HA0USERID1111111111111111", "Eve", none, "eve.sample.02", [1, 7], false, 0, 0⟩

/-- Sample salt row belonging to `userInactive`. -/
def saltInactive : Salts :=
  ⟨"01HA0SALTID1111111111111111", [7], "01HA0USERID1111111111111111", 0, 0⟩

/-- Sample store holding exactly `userInactive` with its `saltInactive`. -/
def dbInactive : Database := ⟨[userInactive], [saltInactive]⟩

/-! ## Helper lemmas: bitwise accumulation in `tscmp` -/

theorem nat_or_eq_zero (m n : Nat) : m ||| n = 0 ↔ m = 0 ∧ n = 0 := by
  constructor
  · intro h
    constructor
    · apply Nat.eq_of_testBit_eq
      intro i
      have hb := congrArg (fun x => Nat.testBit x i) h
      simp only [Nat.testBit_or, Nat.zero_testBit, Bool.or_eq_false_iff] at hb
      simp [hb.1]
    · apply Nat.eq_of_testBit_eq
      intro i
      have hb := congrArg (fun x => Nat.testBit x i) h
      simp only [Nat.testBit_or, Nat.zero_testBit, Bool.or_eq_false_iff] at hb
      simp [hb.2]
  · rintro ⟨rfl, rfl⟩
    rfl

theorem foldl_or_xor_eq_zero (l : List (Nat × Nat)) (init : Nat) :
    l.foldl (fun r q => r ||| (q.1 ^^^ q.2)) init = 0 ↔
      init = 0 ∧ ∀ q ∈ l, q.1 ^^^ q.2 = 0 := by
  induction l generalizing init with
  | nil => simp
  | cons q t ih =>
      simp only [List.foldl_cons, ih, List.mem_cons, nat_or_eq_zero]
      constructor
      · rintro ⟨⟨h0, hq⟩, hall⟩
        exact ⟨h0, fun r hr => by
          rcases hr with rfl | hr
          · exact hq
          · exact hall r hr⟩
      · rintro ⟨h0, hall⟩
        exact ⟨⟨h0, hall q (Or.inl rfl)⟩, fun r hr => hall r (Or.inr hr)⟩

theorem zip_forall_eq (a b : List Nat) (h : a.length = b.length) :
    (∀ q ∈ a.zip b, q.1 = q.2) ↔ a = b := by
  induction a generalizing b with
  | nil =>
      cases b with
      | nil => simp
      | cons y t => simp at h
  | cons x s ih =>
      cases b with
      | nil => simp at h
      | cons y t =>
          simp only [List.length_cons, Nat.add_right_cancel_iff] at h
          constructor
          · intro hall
            have hx : x = y := hall (x, y) (by simp [List.zip_cons_cons])
            have hrest : s = t :=
              (ih t h).mp (fun q hq => hall q (by simp [List.zip_cons_cons, hq]))
            rw [hx, hrest]
          · intro hab
            rw [List.cons.injEq] at hab
            intro q hq
            rw [List.zip_cons_cons, List.mem_cons] at hq
            rcases hq with rfl | hq
            · exact hab.1
            · exact (ih t h).mpr hab.2 q hq

theorem zip_forall_xor_eq (a b : List Nat) (h : a.length = b.length) :
    (∀ q ∈ a.zip b, q.1 ^^^ q.2 = 0) ↔ a = b := by
  rw [← zip_forall_eq a b h]
  exact forall_congr' fun q => forall_congr' fun _ => Nat.xor_eq_zero

theorem compare_digest_eq_iff (a b : List Nat) :
    compare_digest a b = true ↔ a = b := by
  simp only [compare_digest, tscmp, decide_eq_true_iff]
  by_cases h : a.length = b.length
  · rw [if_pos h, if_pos h, foldl_or_xor_eq_zero]
    constructor
    · rintro ⟨-, hall⟩
      exact (zip_forall_xor_eq a b h).mp hall
    · intro hab
      exact ⟨rfl, (zip_forall_xor_eq a b h).mpr hab⟩
  · rw [if_neg h, if_neg h, foldl_or_xor_eq_zero]
    constructor
    · rintro ⟨h0, -⟩
      exact absurd h0 one_ne_zero
    · intro hab
      exact absurd (congrArg List.length hab) h

theorem tscmp_steps (a b : List Nat) : (tscmp a b).2 = b.length := by
  simp only [tscmp]
  by_cases h : a.length = b.length
  · rw [if_pos h, List.length_zip, h, Nat.min_self]
  · rw [if_neg h, List.length_zip, Nat.min_self]

/-! ## Claim theorems for the Credential Hasher -/

/-- C2: for every KDF instance, password `P` and salt `S`, verifying `P`
against the hash component of `hashPassword P S` with the same salt returns
`true`. -/
theorem verifyPassword_of_hashPassword (kdf : KDF)
    (entropy password salt : List Nat) :
    verifyPassword kdf password
      (hashPassword kdf entropy password (some salt)).1 salt = true := by
  simp only [verifyPassword, hashPassword, Option.getD_some]
  exact (compare_digest_eq_iff _ _).mpr rfl

/-- C9: `verifyPassword` compares the recomputed hash against the expected
hash with `hmac.compare_digest` (CPython's `_tscmp`), whose byte-comparison
count equals the expected argument's length for all inputs — it never
depends on the contents, in particular not on the position of the first
differing byte — and whose boolean result is exactly byte-string
equality. -/
theorem verifyPassword_constant_time_compare :
    (∀ (kdf : KDF) (password hashed salt : List Nat),
      verifyPassword kdf password hashed salt =
        (tscmp (kdf scryptParams password salt) hashed).1) ∧
    (∀ a b : List Nat, (tscmp a b).2 = b.length) ∧
    (∀ a b : List Nat, ((tscmp a b).1 = true ↔ a = b)) := by
  refine ⟨?_, tscmp_steps, ?_⟩
  · intro kdf password hashed salt
    rfl
  · intro a b
    exact compare_digest_eq_iff a b

/-! ## Helper lemmas: token decoding and the WhoAmI flow -/

theorem decode_signed_fresh (lifespan now : Int) (p : Payload)
    (h : now < p.exp + lifespan) :
    decodeJSONWebToken lifespan now (Token.signed SECRET_KEY p) = some p := by
  simp only [decodeJSONWebToken, jwtDecode]
  rw [if_pos trivial, if_neg (show ¬ p.exp ≤ now - lifespan by omega)]

theorem decode_signed_stale (lifespan now : Int) (p : Payload)
    (h : p.exp + lifespan ≤ now) :
    decodeJSONWebToken lifespan now (Token.signed SECRET_KEY p) = none := by
  simp only [decodeJSONWebToken, jwtDecode]
  rw [if_pos trivial, if_pos (show p.exp ≤ now - lifespan by omega)]

theorem current_user_in_window (lifespan now : Int) (p : Payload)
    (h1 : p.exp ≤ now) (h2 : now < p.exp + lifespan) :
    current_user lifespan now (Token.signed SECRET_KEY p) =
      .error (.http ExpiredToken) := by
  simp only [current_user, decode_signed_fresh lifespan now p h2]
  rw [if_pos h1]

theorem current_user_beyond_window (lifespan now : Int) (p : Payload)
    (h : p.exp + lifespan ≤ now) :
    current_user lifespan now (Token.signed SECRET_KEY p) =
      .error (.http InvalidToken) := by
  simp only [current_user, decode_signed_stale lifespan now p h]

/-! ## Claim theorems for the Token Service -/

/-- C8: for every positive configured lifetime, issuing a token and
validating it at the same instant succeeds: the decoded claims carry the
issued username as subject and an `issued_at` strictly below `expires_at`,
and the WhoAmI flow returns the subject. -/
theorem issue_then_validate (lifespan now : Int) (username : String)
    (hpos : 0 < lifespan) :
    decodeJSONWebToken lifespan now (issueJSONWebToken lifespan now username) =
      some ⟨username, now, now + lifespan⟩ ∧
    (Payload.mk username now (now + lifespan)).sub = username ∧
    (Payload.mk username now (now + lifespan)).iat <
      (Payload.mk username now (now + lifespan)).exp ∧
    current_user lifespan now (issueJSONWebToken lifespan now username) =
      .ok ⟨username, [("X-Token-Expiry", decodeTimestamp (now + lifespan))]⟩ := by
  have hdec :
      decodeJSONWebToken lifespan now (issueJSONWebToken lifespan now username) =
        some ⟨username, now, now + lifespan⟩ :=
    decode_signed_fresh lifespan now ⟨username, now, now + lifespan⟩
      (show now < now + lifespan + lifespan by omega)
  refine ⟨hdec, rfl, show now < now + lifespan by omega, ?_⟩
  simp only [current_user, hdec]
  rw [if_neg (show ¬ (now + lifespan ≤ now) by omega)]

/-- Witness for C8 at `lifespan = 30`, `now = 0`,
`username = "alice.test.0001"`. -/
theorem issue_then_validate_witness :
    (0 : Int) < 30 ∧
    decodeJSONWebToken 30 0 (issueJSONWebToken 30 0 "alice.test.0001") =
      some ⟨"alice.test.0001", 0, 30⟩ :=
  ⟨by decide, (issue_then_validate 30 0 "alice.test.0001" (by decide)).1⟩

/-- C1 is false as stated: this signature-valid token has
`expires_at = 30 ≤ now = 60`, yet the WhoAmI flow fails with
`InvalidToken`, not `ExpiredToken` — once the elapsed time reaches the
decode leeway (the configured lifetime, here 30), `decodeJSONWebToken`
itself rejects the token. -/
theorem whoAmI_stale_invalid_counterexample :
    issueJSONWebToken 30 0 "alice.test.0001" =
      Token.signed SECRET_KEY ⟨"alice.test.0001", 0, 30⟩ ∧
    (Payload.mk "alice.test.0001" 0 30).exp ≤ (60 : Int) ∧
    current_user 30 60 (Token.signed SECRET_KEY ⟨"alice.test.0001", 0, 30⟩) =
      .error (.http InvalidToken) ∧
    PyError.http InvalidToken ≠ PyError.http ExpiredToken := by
  refine ⟨rfl, by decide, ?_, by decide⟩
  exact current_user_beyond_window 30 60 ⟨"alice.test.0001", 0, 30⟩ (by decide)

/-- C1 amended: for every token whose signature verifies against the
configured key and whose `expires_at` satisfies `expires_at ≤ now`, the
WhoAmI flow fails with `ExpiredToken` as long as `now` is still within the
decode leeway (`now < expires_at + lifespan`); once
`expires_at + lifespan ≤ now` the decode step rejects the token and the
flow fails with `InvalidToken` instead. -/
theorem whoAmI_expired_window (lifespan now : Int) (p : Payload)
    (hexp : p.exp ≤ now) :
    (now < p.exp + lifespan →
      current_user lifespan now (Token.signed SECRET_KEY p) =
        .error (.http ExpiredToken)) ∧
    (p.exp + lifespan ≤ now →
      current_user lifespan now (Token.signed SECRET_KEY p) =
        .error (.http InvalidToken)) :=
  ⟨fun h => current_user_in_window lifespan now p hexp h,
   fun h => current_user_beyond_window lifespan now p h⟩

/-- Witness for the amended C1 at `lifespan = 30`, `now = 5`,
`expires_at = 3`. -/
theorem whoAmI_expired_window_witness :
    (Payload.mk "bob.sample.01" 0 3).exp ≤ (5 : Int) ∧
    current_user 30 5 (Token.signed SECRET_KEY ⟨"bob.sample.01", 0, 3⟩) =
      .error (.http ExpiredToken) :=
  ⟨by decide,
   (whoAmI_expired_window 30 5 ⟨"bob.sample.01", 0, 3⟩ (by decide)).1 (by decide)⟩

/-- C10: decoding applies a leeway equal to the configured lifetime `L`:
a signature-valid token decodes to its payload at every `now < expires_at
+ L`, decodes to `none` — which WhoAmI maps to `InvalidToken` — at every
`now ≥ expires_at + L`, and is reported `ExpiredToken` exactly within the
window `expires_at ≤ now < expires_at + L`. -/
theorem decode_leeway_window (lifespan now : Int) (p : Payload) :
    (now < p.exp + lifespan →
      decodeJSONWebToken lifespan now (Token.signed SECRET_KEY p) = some p) ∧
    (p.exp + lifespan ≤ now →
      decodeJSONWebToken lifespan now (Token.signed SECRET_KEY p) = none ∧
      current_user lifespan now (Token.signed SECRET_KEY p) =
        .error (.http InvalidToken)) ∧
    (p.exp ≤ now → now < p.exp + lifespan →
      current_user lifespan now (Token.signed SECRET_KEY p) =
        .error (.http ExpiredToken)) :=
  ⟨fun h => decode_signed_fresh lifespan now p h,
   fun h => ⟨decode_signed_stale lifespan now p h,
             current_user_beyond_window lifespan now p h⟩,
   fun h1 h2 => current_user_in_window lifespan now p h1 h2⟩

/-- Witness for C10 at `lifespan = 30` and a token with `expires_at = 30`,
evaluated at `now = 0` (decodes) and `now = 60` (rejected as invalid). -/
theorem decode_leeway_window_witness :
    decodeJSONWebToken 30 0 (Token.signed SECRET_KEY ⟨"carol.t.01", 0, 30⟩) =
      some ⟨"carol.t.01", 0, 30⟩ ∧
    decodeJSONWebToken 30 60 (Token.signed SECRET_KEY ⟨"carol.t.01", 0, 30⟩) =
      none :=
  ⟨(decode_leeway_window 30 0 ⟨"carol.t.01", 0, 30⟩).1 (by decide),
   ((decode_leeway_window 30 60 ⟨"carol.t.01", 0, 30⟩).2.1 (by decide)).1⟩

/-! ## Claim theorems for the Authentication Orchestrator -/

/-- C3 describes the intended contract, but the code cannot meet its
success half: on the failure side renew propagates exactly the error
WhoAmI raises, but on a token WhoAmI accepts, renew subscripts the
`PlainTextResponse` WhoAmI returned — an object with no item access — so
the handler always raises `TypeError` instead of issuing a token.
Evaluated below on a freshly issued, valid token. -/
theorem renew_never_succeeds :
    (∀ (lifespan now : Int) (token : Token),
      (∃ e, current_user lifespan now token = .error e ∧
        renew_json_web_token lifespan now token = .error e) ∨
      (∃ r, current_user lifespan now token = .ok r ∧
        renew_json_web_token lifespan now token = .error .typeError)) ∧
    current_user 30 0 (issueJSONWebToken 30 0 "alice.test.0001") =
      .ok ⟨"alice.test.0001", [("X-Token-Expiry", "30")]⟩ ∧
    renew_json_web_token 30 0 (issueJSONWebToken 30 0 "alice.test.0001") =
      .error .typeError := by
  refine ⟨?_, by decide, by decide⟩
  intro lifespan now token
  cases h : current_user lifespan now token with
  | error e =>
      exact .inl ⟨e, rfl, by simp only [renew_json_web_token, h]⟩
  | ok r =>
      exact .inr ⟨r, rfl, by
        simp only [renew_json_web_token, h, PlainTextResponse.getItem]⟩

theorem updateDatabaseWithNewUser_spec (u : Users) (s : Salts)
    (db : Database) :
    updateDatabaseWithNewUser u s db = none ∨
    updateDatabaseWithNewUser u s db =
      some ⟨db.users ++ [u], db.salts ++ [s]⟩ := by
  unfold updateDatabaseWithNewUser insertUser insertSalt
  by_cases h1 :
      db.users.any (fun v => v.user_id == u.user_id || v.username == u.username)
  · simp [h1]
  · by_cases h2 : db.salts.any (fun t => t.salt_id == s.salt_id)
    · simp [h1, h2]
    · by_cases h3 : (db.users ++ [u]).any (fun v => v.user_id == s.user_id)
      · simp [h1, h2, h3]
      · simp [h1, h2, h3]

/-- C4: a signup request changes the store atomically: the state visible
afterwards is either exactly the prior state (on `UserExists` or any
persistence error, the transaction having rolled back) or the prior state
extended with exactly one new `Users` row together with one new `Salts`
row whose `user_id` equals the new user's id; no partial state is ever
returned. -/
theorem signup_atomic (kdf : KDF) (entropy : List Nat) (uid sid : String)
    (now : Int) (form : NewUserForm) (db : Database) :
    signupPostState (create_new_user kdf entropy uid sid now form db) db =
      db ∨
    (∃ u s, u.user_id = s.user_id ∧
      signupPostState (create_new_user kdf entropy uid sid now form db) db =
        ⟨db.users ++ [u], db.salts ++ [s]⟩) := by
  simp only [create_new_user]
  by_cases h : usernameExists form.username db
  · rw [if_pos h]
    exact .inl rfl
  · rw [if_neg h]
    rcases updateDatabaseWithNewUser_spec
        ⟨uid, form.first_name, form.last_name, form.username,
          (hashPassword kdf entropy form.password none).1, true, now, now⟩
        ⟨sid, (hashPassword kdf entropy form.password none).2, uid, now, now⟩
        db with h2 | h2 <;> rw [h2]
    · exact .inl rfl
    · exact .inr ⟨_, _, rfl, rfl⟩

/-- C5: a login with an unknown username and a login with a stored
username but a non-verifying password produce the identical failure — the
same `HTTPException` value, status 401 with detail "invalid credentials" —
so the two cases cannot be told apart from the result. -/
theorem login_username_enumeration_free (kdf : KDF) (lifespan now : Int)
    (u1 u2 : String) (pw1 pw2 : List Nat) (db : Database)
    (user : Users) (salt : Salts)
    (h1 : usernameExists u1 db = false)
    (h2 : usernameExists u2 db = true)
    (h3 : retrieveUser u2 db = some (user, salt))
    (h4 : verifyPassword kdf pw2 user.password salt.salt = false) :
    user_login kdf lifespan now u1 pw1 db =
      .error (.http InvalidCredentials) ∧
    user_login kdf lifespan now u2 pw2 db =
      .error (.http InvalidCredentials) ∧
    user_login kdf lifespan now u1 pw1 db =
      user_login kdf lifespan now u2 pw2 db := by
  have e1 : user_login kdf lifespan now u1 pw1 db =
      .error (.http InvalidCredentials) := by
    simp [user_login, h1]
  have e2 : user_login kdf lifespan now u2 pw2 db =
      .error (.http InvalidCredentials) := by
    simp [user_login, h2, h3, h4]
  exact ⟨e1, e2, e1.trans e2.symm⟩

/-- Witness for C5: the sample store knows `bob.sample.01` but not
`zoe.sample.99`; both the unknown-user login and the wrong-password login
return the same `InvalidCredentials` error. -/
theorem login_username_enumeration_free_witness :
    user_login kdfDemo 30 0 "zoe.sample.99" [1] dbDemo =
      .error (.http InvalidCredentials) ∧
    user_login kdfDemo 30 0 "bob.sample.01" [1] dbDemo =
      .error (.http InvalidCredentials) := by
  have h := login_username_enumeration_free kdfDemo 30 0 "zoe.sample.99"
    "bob.sample.01" [1] [1] dbDemo userDemo saltDemo
    (by decide) (by decide) (by decide) (by decide)
  exact ⟨h.1, h.2.1⟩

/-- C6: given a stored user+salt pair, a verifying password with
`active = false` makes login fail `InactiveUser` — a different outcome
from `InvalidCredentials` — while a non-verifying password always fails
`InvalidCredentials`, whatever the active flag: the flag is consulted only
after password verification succeeds. -/
theorem login_inactive_only_after_verify (kdf : KDF) (lifespan now : Int)
    (u : String) (pw : List Nat) (db : Database) (user : Users)
    (salt : Salts)
    (h1 : usernameExists u db = true)
    (h2 : retrieveUser u db = some (user, salt)) :
    (verifyPassword kdf pw user.password salt.salt = true →
      user.active = false →
      user_login kdf lifespan now u pw db = .error (.http InactiveUser)) ∧
    (verifyPassword kdf pw user.password salt.salt = false →
      user_login kdf lifespan now u pw db =
        .error (.http InvalidCredentials)) ∧
    InactiveUser ≠ InvalidCredentials := by
  refine ⟨?_, ?_, by decide⟩
  · intro hv ha
    simp [user_login, h1, h2, hv, ha]
  · intro hv
    simp [user_login, h1, h2, hv]

/-- Witness for C6: in the sample store `eve.sample.02` has a verifying
password and `active = false`; login fails `InactiveUser`. -/
theorem login_inactive_only_after_verify_witness :
    user_login kdfDemo 30 0 "eve.sample.02" [1] dbInactive =
      .error (.http InactiveUser) :=
  (login_inactive_only_after_verify kdfDemo 30 0 "eve.sample.02" [1]
      dbInactive userInactive saltInactive (by decide) (by decide)).1
    (by decide) (by decide)

/-- C7: a signup whose username already has exactly one stored row fails
with the `UserExists` outcome (HTTP 409, "username exists"), the visible
store is the unchanged prior state, and the row count for that username is
still one. -/
theorem signup_existing_username (kdf : KDF) (entropy : List Nat)
    (uid sid : String) (now : Int) (form : NewUserForm) (db : Database)
    (h : (db.users.filter (fun u => u.username == form.username)).length = 1) :
    create_new_user kdf entropy uid sid now form db =
      .error (.http UserExists) ∧
    signupPostState (create_new_user kdf entropy uid sid now form db) db =
      db ∧
    ((signupPostState (create_new_user kdf entropy uid sid now form db)
        db).users.filter (fun u => u.username == form.username)).length = 1 := by
  have hex : usernameExists form.username db = true := by
    simp only [usernameExists, h]
    decide
  have hc : create_new_user kdf entropy uid sid now form db =
      .error (.http UserExists) := by
    simp [create_new_user, hex]
  refine ⟨hc, by rw [hc]; rfl, ?_⟩
  rw [hc]
  exact h

/-- Witness for C7: signing up again with `bob.sample.01`, which the
sample store already holds once, fails with `UserExists`. -/
theorem signup_existing_username_witness :
    (dbDemo.users.filter (fun u => u.username == "bob.sample.01")).length
      = 1 ∧
    create_new_user kdfDemo [3] "01HNEWUSER" "01HNEWSALT" 0
      ⟨"Bob", none, "bob.sample.01", [1]⟩ dbDemo =
      .error (.http UserExists) :=
  ⟨by decide,
   (signup_existing_username kdfDemo [3] "01HNEWUSER" "01HNEWSALT" 0
      ⟨"Bob", none, "bob.sample.01", [1]⟩ dbDemo (by decide)).1⟩

end FastAPIJWT
